import Mathlib

/-!
Verification development for the upix image-upload API (`src/lib.rs`).

The repository is a Cloudflare Worker that accepts a raster image via
`POST /`, validates its declared format and dimensions, hashes the raw
body with SHA-256, derives four nearest-neighbor upscaled variants, and
persists all five variants to an R2 bucket, answering with the list of
uploaded records or an error response.

The embedding below mirrors the Rust source function by function.
External library capabilities (the `sha2` hasher, the `image` crate
format table, decoder, encoder and nearest-neighbor resize, and the R2
bucket `put`) are modelled at their documented interface: the hash is
a full executable SHA-256 (FIPS 180-4), while the decoder, the encoder
and the bucket are request-environment parameters, since the pipeline
only branches on their success or failure.
-/

namespace Upix

/-! ## SHA-256 (model of the `Sha256` hasher of the `sha2` crate)

Executable SHA-256 over byte lists (bytes are `Nat`s below 256), written
with `Nat` arithmetic modulo `2^32` exactly as in FIPS 180-4. -/

/-- Word arithmetic modulo `2^32`. -/
def add32 (a b : Nat) : Nat := (a + b) % 2 ^ 32

/-- Right rotation of a 32-bit word. -/
def rotr32 (n x : Nat) : Nat := ((x >>> n) ||| (x <<< (32 - n))) % 2 ^ 32

/-- Bitwise complement of a 32-bit word. -/
def not32 (x : Nat) : Nat := x ^^^ (2 ^ 32 - 1)

/-- The `Ch` function of FIPS 180-4. -/
def sha2Ch (x y z : Nat) : Nat := (x &&& y) ^^^ (not32 x &&& z)

/-- The `Maj` function of FIPS 180-4. -/
def sha2Maj (x y z : Nat) : Nat := (x &&& y) ^^^ (x &&& z) ^^^ (y &&& z)

/-- Big Sigma-0. -/
def bSig0 (x : Nat) : Nat := rotr32 2 x ^^^ rotr32 13 x ^^^ rotr32 22 x

/-- Big Sigma-1. -/
def bSig1 (x : Nat) : Nat := rotr32 6 x ^^^ rotr32 11 x ^^^ rotr32 25 x

/-- Small sigma-0. -/
def sSig0 (x : Nat) : Nat := rotr32 7 x ^^^ rotr32 18 x ^^^ (x >>> 3)

/-- Small sigma-1. -/
def sSig1 (x : Nat) : Nat := rotr32 17 x ^^^ rotr32 19 x ^^^ (x >>> 10)

/-- The 64 SHA-256 round constants, in eight rows of eight. -/
def sha2K : List Nat :=
  [0x428a2f98, 0x71374491, 0xb5c0fbcf, 0xe9b5dba5, 0x3956c25b, 0x59f111f1, 0x923f82a4, 0xab1c5ed5]
    ++ [0xd807aa98, 0x12835b01, 0x243185be, 0x550c7dc3, 0x72be5d74, 0x80deb1fe, 0x9bdc06a7, 0xc19bf174]
    ++ [0xe49b69c1, 0xefbe4786, 0x0fc19dc6, 0x240ca1cc, 0x2de92c6f, 0x4a7484aa, 0x5cb0a9dc, 0x76f988da]
    ++ [0x983e5152, 0xa831c66d, 0xb00327c8, 0xbf597fc7, 0xc6e00bf3, 0xd5a79147, 0x06ca6351, 0x14292967]
    ++ [0x27b70a85, 0x2e1b2138, 0x4d2c6dfc, 0x53380d13, 0x650a7354, 0x766a0abb, 0x81c2c92e, 0x92722c85]
    ++ [0xa2bfe8a1, 0xa81a664b, 0xc24b8b70, 0xc76c51a3, 0xd192e819, 0xd6990624, 0xf40e3585, 0x106aa070]
    ++ [0x19a4c116, 0x1e376c08, 0x2748774c, 0x34b0bcb5, 0x391c0cb3, 0x4ed8aa4a, 0x5b9cca4f, 0x682e6ff3]
    ++ [0x748f82ee, 0x78a5636f, 0x84c87814, 0x8cc70208, 0x90befffa, 0xa4506ceb, 0xbef9a3f7, 0xc67178f2]

/-- The SHA-256 initial hash value, in two rows of four. -/
def sha2H0 : List Nat :=
  [0x6a09e667, 0xbb67ae85, 0x3c6ef372, 0xa54ff53a]
    ++ [0x510e527f, 0x9b05688c, 0x1f83d9ab, 0x5be0cd19]

/-- Big-endian byte rendering of `v` on `n` bytes. -/
def beBytes (n v : Nat) : List Nat :=
  (List.range n).map fun i => (v >>> (8 * (n - 1 - i))) % 256

/-- SHA-256 padding: append `0x80`, zero bytes up to 56 mod 64, then the
bit length on 8 big-endian bytes. -/
def sha2Pad (msg : List Nat) : List Nat :=
  let l := msg.length
  let k := (55 + 64 - l % 64) % 64
  msg ++ [0x80] ++ List.replicate k 0 ++ beBytes 8 (8 * l)

/-- Group a byte list into big-endian 32-bit words (four bytes each). -/
def bytesToWords : List Nat → List Nat
  | b0 :: b1 :: b2 :: b3 :: rest => (((b0 * 256 + b1) * 256 + b2) * 256 + b3) :: bytesToWords rest
  | _ => []

/-- One step of the message-schedule extension: push the next word. -/
def scheduleStep (w : Array Nat) : Array Nat :=
  let n := w.size
  w.push (add32 (add32 (sSig1 (w.getD (n - 2) 0)) (w.getD (n - 7) 0))
               (add32 (sSig0 (w.getD (n - 15) 0)) (w.getD (n - 16) 0)))

/-- Extend the 16-word schedule by `n` further words. -/
def extendSchedule (w : Array Nat) : Nat → Array Nat
  | 0 => w
  | n + 1 => extendSchedule (scheduleStep w) n

/-- One SHA-256 compression round on the eight-word working state. -/
def sha2Round (st : List Nat) (k w : Nat) : List Nat :=
  match st with
  | [a, b, c, d, e, f, g, h] =>
    let t1 := add32 h (add32 (bSig1 e) (add32 (sha2Ch e f g) (add32 k w)))
    let t2 := add32 (bSig0 a) (sha2Maj a b c)
    [add32 t1 t2, a, b, c, add32 d t1, e, f, g]
  | other => other

/-- Run the 64 rounds over the zipped constants and schedule. -/
def sha2Rounds (st : List Nat) : List (Nat × Nat) → List Nat
  | [] => st
  | (k, w) :: rest => sha2Rounds (sha2Round st k w) rest

/-- Compress one 64-byte block into the running hash state. -/
def sha2Compress (st block : List Nat) : List Nat :=
  let ws := extendSchedule (Array.mk (bytesToWords block)) 48
  let st2 := sha2Rounds st (sha2K.zip ws.toList)
  List.zipWith add32 st st2

/-- Fold the compression over `fuel` leading 64-byte blocks of `msg`. -/
def sha2Run (st : List Nat) (fuel : Nat) (msg : List Nat) : List Nat :=
  match fuel with
  | 0 => st
  | n + 1 => sha2Run (sha2Compress st (msg.take 64)) n (msg.drop 64)

/-- SHA-256 digest of a byte list, as the list of its 32 digest bytes. -/
def sha256 (msg : List Nat) : List Nat :=
  let padded := sha2Pad msg
  let final := sha2Run sha2H0 (padded.length / 64) padded
  (final.map (beBytes 4)).flatten

/-! ## Lowercase hex encoding (model of `hex::encode`) -/

/-- The sixteen lowercase hex digit characters. -/
def hexDigits : List Char := "0123456789abcdef".data

/-- The hex digit character for a value below 16. -/
def hexDigit (n : Nat) : Char := hexDigits.getD n '0'

/-- The two lowercase hex characters of one byte. -/
def byteToHex (b : Nat) : List Char := [hexDigit (b / 16 % 16), hexDigit (b % 16)]

/-- Lowercase hex string of a byte list, as `hex::encode` renders it. -/
def hexEncode (bs : List Nat) : String := String.mk (bs.flatMap byteToHex)

/-- The content fingerprint: lowercase hex SHA-256 of the raw bytes.
This is the composition the handler computes with `Sha256::new`,
`update`, `finalize` and `hex::encode`. -/
def sha256hex (msg : List Nat) : String := hexEncode (sha256 msg)

/-! ## The `image` crate interface used by the handler

The handler uses `ImageFormat::from_mime_type`, `extensions_str`,
`to_mime_type`, the decoder, the encoder and `DynamicImage::resize`
with `FilterType::Nearest`. The format table below transcribes the
`image` crate tables; decoder and encoder become request-environment
parameters further down. -/

/-- The image formats of the `image` crate `ImageFormat` enum. -/
inductive ImageFormat where
  | Png | Jpeg | Gif | WebP | Pnm | Tiff | Tga | Dds | Bmp | Ico | Hdr | OpenExr | Farbfeld | Avif | Qoi
deriving DecidableEq, Fintype

/-- Model of `ImageFormat::from_mime_type`: the crate exact
mime-string match table; any other string yields `none`. -/
def ImageFormat.from_mime_type (m : String) : Option ImageFormat :=
  if m = "image/avif" then some .Avif
  else if m = "image/jpeg" then some .Jpeg
  else if m = "image/png" then some .Png
  else if m = "image/gif" then some .Gif
  else if m = "image/webp" then some .WebP
  else if m = "image/tiff" then some .Tiff
  else if m = "image/x-targa" ∨ m = "image/x-tga" then some .Tga
  else if m = "image/vnd-ms.dds" then some .Dds
  else if m = "image/bmp" then some .Bmp
  else if m = "image/x-icon" ∨ m = "image/vnd.microsoft.icon" then some .Ico
  else if m = "image/vnd.radiance" then some .Hdr
  else if m = "image/x-exr" then some .OpenExr
  else if m = "image/x-portable-bitmap" ∨ m = "image/x-portable-graymap"
        ∨ m = "image/x-portable-pixmap" ∨ m = "image/x-portable-anymap" then some .Pnm
  else if m = "image/x-qoi" ∨ m = "image/qoi" then some .Qoi
  else none

/-- Model of `ImageFormat::extensions_str`: the recognised file
extensions of each format, first entry first. -/
def ImageFormat.extensions_str : ImageFormat → List String
  | .Png => ["png"]
  | .Jpeg => ["jpg", "jpeg"]
  | .Gif => ["gif"]
  | .WebP => ["webp"]
  | .Pnm => ["pbm", "pam", "ppm", "pgm"]
  | .Tiff => ["tiff", "tif"]
  | .Tga => ["tga"]
  | .Dds => ["dds"]
  | .Bmp => ["bmp"]
  | .Ico => ["ico"]
  | .Hdr => ["hdr"]
  | .OpenExr => ["exr"]
  | .Farbfeld => ["ff"]
  | .Avif => ["avif"]
  | .Qoi => ["qoi"]

/-- The `extensions_str()[0]` indexing the handler performs. -/
def ImageFormat.ext0 (fmt : ImageFormat) : String := fmt.extensions_str.getD 0 ""

/-- A decoded pixel grid: the model of `DynamicImage`. A pixel is an
abstract `Nat` (an RGBA sample); `dimensions()` returns the two size
fields. -/
structure Image where
  width : Nat
  height : Nat
  pixel : Nat → Nat → Nat

/-- Source index sampled by the crate nearest filter for output cell
`x`: the floor of `(x + 1/2) · srcLen / dstLen`, written over `Nat`. -/
def nearestSrcIndex (srcLen dstLen x : Nat) : Nat :=
  (2 * x + 1) * srcLen / (2 * dstLen)

/-- Model of `DynamicImage::resize(nw, nh, FilterType::Nearest)` at the
call sites of this handler, where the target `(nw, nh) = (w·s, h·s)` is
an exact multiple of the source size: the crate aspect-preserving fit
then returns the target itself, and the nearest filter samples source
cell `floor((x + 1/2)·w/nw)` in each axis. -/
def resizeNearest (img : Image) (nw nh : Nat) : Image :=
  { width := nw
    height := nh
    pixel := fun x y =>
      img.pixel (nearestSrcIndex img.width nw x) (nearestSrcIndex img.height nh y) }

/-- The resize call of `upload_upscaled_image` (line 268 of the
source): `self.img.resize(w * scale, h * scale, FilterType::Nearest)`. -/
def upscaled (img : Image) (scale : Nat) : Image :=
  resizeNearest img (img.width * scale) (img.height * scale)

/-! ## Error and response model -/

/-- The handler `ApiError`: a status code and an optional message. -/
structure ApiError where
  status : Nat
  message : Option String
deriving DecidableEq

/-- The `ApiError::new` constructor: status with a message. -/
def ApiError.new (status : Nat) (msg : String) : ApiError :=
  { status := status, message := some msg }

/-- The `ApiError::no_msg` constructor: status with no message. -/
def ApiError.no_msg (status : Nat) : ApiError :=
  { status := status, message := none }

/-- One record of the success response: `UploadedImage {scale, name}`. -/
structure UploadedImage where
  scale : Nat
  name : String
deriving DecidableEq

/-- The observable body of an HTTP response: empty (`Response::empty`),
a JSON object with one `message` field, or the JSON list of records. -/
inductive ResponseBody where
  | empty
  | message (msg : String)
  | records (recs : List UploadedImage)
deriving DecidableEq

/-- An HTTP response as the caller observes it. -/
structure HttpResponse where
  status : Nat
  body : ResponseBody
deriving DecidableEq

/-- `ApiError::to_response`: no message gives an empty body, a message
gives the JSON object with the single `message` field; either way the
error status is installed. -/
def ApiError.to_response (e : ApiError) : HttpResponse :=
  match e.message with
  | none => { status := e.status, body := .empty }
  | some msg => { status := e.status, body := .message msg }

/-! ## Request environment and effect trace

Request-scoped external behavior is a record of parameters: the bucket
binding, the `Content-Type` header, the body read, the decoder, the
encoder and the bucket `put`. The pipeline also emits a trace of the
externally visible work it performs, to state ordering and omission
properties. -/

/-- Outcome of `image::load_from_memory_with_format`: a decoded image,
a `ImageError::Decoding` failure, or any other `ImageError`. -/
inductive DecodeResult where
  | ok (img : Image)
  | decodingErr
  | otherErr

/-- Externally visible work items of one request, in order of
occurrence. -/
inductive Action where
  | bindBucket
  | getContentType
  | validateFormat
  | readBody
  | hashBytes
  | decodeImage
  | validateDim
  | encodeImg
  | persist (key : String)
deriving DecidableEq

/-- The external world of one request. `decode`, `encode` and `put`
model the library decoder, the library encoder and the R2 bucket
`put`, each summarized by its outcome on the given arguments. -/
structure RequestEnv where
  bucketOk : Bool
  contentType : Option String
  body : Option (List Nat)
  decode : List Nat → ImageFormat → DecodeResult
  encode : Image → Option (List Nat)
  put : String → List Nat → Bool

/-! ## The pipeline functions of `src/lib.rs` -/

/-- Model of `str::starts_with`: character-level prefix test, which on
valid UTF-8 agrees with the Rust byte-level prefix test. -/
def strStartsWith (s p : String) : Bool := p.data.isPrefixOf s.data

/-- `validate_img_format` (lines 130-145): reject non-`image/*` types,
reject mime strings the crate does not recognise, and accept only the
PNG / WebP / BMP / GIF subset, naming the format first extension in
the rejection message otherwise. -/
def validate_img_format (content_type : String) : Except ApiError ImageFormat :=
  if ¬ strStartsWith content_type "image/" then
    .error (ApiError.new 400 "Content-Type is not for an image")
  else
    match ImageFormat.from_mime_type content_type with
    | none => .error (ApiError.new 400 "Content-Type is not for an image")
    | some img_fmt =>
      match img_fmt with
      | .Png | .WebP | .Bmp | .Gif => .ok img_fmt
      | _ => .error (ApiError.new 400 ("unsupported image format: " ++ img_fmt.ext0))

/-- The handler dimension limits (lines 147-149). -/
def MAX_PIXELS : Nat := 65536

/-- Maximum accepted long-side length. -/
def MAX_LONG_SIDE_LEN : Nat := 1024

/-- Model of the aspect-ratio test `f64::from(long) / f64::from(short)
> MAX_ASPECT_RATIO` with `MAX_ASPECT_RATIO = 16.0`, over exact `Nat`
arithmetic. IEEE-754 semantics of the original expression: `u32`
conversion to `f64` is exact; for `short = 0` the quotient is `NaN`
(`long = 0`, comparison false) or `+infinity` (`long > 0`, comparison
true); for `short > 0` the correctly rounded quotient exceeds `16.0`
exactly when the true quotient does, because a true quotient above 16
exceeds it by at least `1/short ≥ 2^-32`, far above the half-ulp
`2^-49` at 16, and a true quotient at most 16 rounds to at most the
exactly representable 16. Hence the comparison equals `long > 16 *
short` on the whole `u32` range when `short > 0`. -/
def aspect_ratio_exceeded (long short : Nat) : Bool :=
  if short = 0 then decide (0 < long) else decide (16 * short < long)

/-- The dimension checks of `validate_img_dimension` (lines 151-180)
on the destructured `(w, h)`. The pixel-count product `w * h` is `u32`
multiplication, hence taken modulo `2^32` as release builds wrap on
overflow. The three checks run in declared order and the first failure
is returned. -/
def validate_dims (w h : Nat) : Except ApiError Unit :=
  if (w * h) % 2 ^ 32 > MAX_PIXELS then
    .error (ApiError.new 400
      ("Image has too many pixels (" ++ toString ((w * h) % 2 ^ 32) ++ " > " ++ toString MAX_PIXELS ++ ")"))
  else
    let long := if w > h then w else h
    let short := if w > h then h else w
    if long > MAX_LONG_SIDE_LEN then
      .error (ApiError.new 400
        ("Long side of image is too long (" ++ toString long ++ " > " ++ toString MAX_LONG_SIDE_LEN ++ ")"))
    else if aspect_ratio_exceeded long short then
      .error (ApiError.new 400
        ("Aspect retio of image is out of range (" ++ toString long ++ " : " ++ toString short ++ " > 16 : 1)"))
    else .ok ()

/-- `validate_img_dimension` (lines 151-180): destructure
`img.dimensions()` into `(w, h)` and run the three checks. -/
def validate_img_dimension (img : Image) : Except ApiError Unit :=
  validate_dims img.width img.height

/-- `load_image_with_hash` (lines 182-196): hash the raw bytes first,
then decode; a `Decoding` error is user-facing 400, any other decoder
fault is an opaque 500. -/
def load_image_with_hash (decode : List Nat → ImageFormat → DecodeResult)
    (img_data : List Nat) (img_fmt : ImageFormat) : Except ApiError (Image × String) :=
  let hash := sha256hex img_data
  match decode img_data img_fmt with
  | .decodingErr => .error (ApiError.new 400 "failed to decode image")
  | .otherErr => .error (ApiError.no_msg 500)
  | .ok img => .ok (img, hash)

/-- The `ImageUploader` value (lines 236-241) without the bucket
handle, which lives in the request environment. -/
structure ImageUploader where
  img : Image
  hash : String
  dest_fmt : ImageFormat

/-- `upload_image_to_bucket` (lines 211-234): build the key
`{stem}.{ext}` from the stem and the format first extension, `put`
the data under that key, and return the key on success. Emits one
persistence action for the attempted `put`. -/
def upload_image_to_bucket (put : String → List Nat → Bool)
    (stem : String) (data : List Nat) (img_fmt : ImageFormat) :
    Option String × List Action :=
  let key := stem ++ "." ++ img_fmt.ext0
  (if put key data then some key else none, [Action.persist key])

/-- `ImageUploader::upload_original_image` (lines 250-264): encode the
decoded image in the destination format and persist it under the bare
hash stem, reporting scale 1. -/
def upload_original_image (env : RequestEnv) (up : ImageUploader) :
    Option UploadedImage × List Action :=
  match env.encode up.img with
  | none => (none, [Action.encodeImg])
  | some img_data =>
    let r := upload_image_to_bucket env.put up.hash img_data up.dest_fmt
    (r.1.map fun name => { scale := 1, name := name }, Action.encodeImg :: r.2)

/-- `ImageUploader::upload_upscaled_image` (lines 266-281): resize by
the scale with the nearest filter, encode, and persist under the stem
`{hash}_{scale}x`. -/
def upload_upscaled_image (env : RequestEnv) (up : ImageUploader) (scale : Nat) :
    Option UploadedImage × List Action :=
  let img := upscaled up.img scale
  match env.encode img with
  | none => (none, [Action.encodeImg])
  | some img_data =>
    let stem := up.hash ++ "_" ++ toString scale ++ "x"
    let r := upload_image_to_bucket env.put stem img_data up.dest_fmt
    (r.1.map fun name => { scale := scale, name := name }, Action.encodeImg :: r.2)

/-- The five tasks of the fan-out (lines 115-121), in construction
order: the original, then the 2x, 4x, 8x and 16x variants. -/
def pipeline_tasks (env : RequestEnv) (up : ImageUploader) :
    List (Option UploadedImage × List Action) :=
  [upload_original_image env up,
   upload_upscaled_image env up 2,
   upload_upscaled_image env up 4,
   upload_upscaled_image env up 8,
   upload_upscaled_image env up 16]

/-- The `collect::<Result<Vec<_>, ()>>()` of line 122 over joined task
outcomes: all successes give the list in order, any failure gives
failure. -/
def collect_results : List (Option UploadedImage) → Option (List UploadedImage)
  | [] => some []
  | none :: _ => none
  | some x :: rest => (collect_results rest).map (x :: ·)

/-- Lines 115-127: join the five tasks and map any failure to the
aggregate `ApiError::new(500, "Internal Server Error")`. -/
def run_fanout (env : RequestEnv) (up : ImageUploader) :
    Except ApiError (List UploadedImage) :=
  match collect_results ((pipeline_tasks env up).map Prod.fst) with
  | some recs => .ok recs
  | none => .error (ApiError.new 500 "Internal Server Error")

/-- The concatenated action traces of the five tasks. -/
def fanout_trace (env : RequestEnv) (up : ImageUploader) : List Action :=
  ((pipeline_tasks env up).map Prod.snd).flatten

/-- `post_image` (lines 84-128): resolve the bucket binding, read and
validate the `Content-Type` header, read the body, enforce the 512 KiB
cap, hash and decode, validate dimensions, then run the five-way
fan-out with destination format PNG. Besides the outcome, the model
returns the trace of externally visible work performed. -/
def post_image (env : RequestEnv) :
    Except ApiError (List UploadedImage) × List Action :=
  match env.bucketOk with
  | false => (.error (ApiError.no_msg 500), [Action.bindBucket])
  | true =>
    match env.contentType with
    | none => (.error (ApiError.new 400 "missing Content-Type header"),
               [Action.bindBucket, Action.getContentType])
    | some content_type =>
      match validate_img_format content_type with
      | .error e => (.error e,
          [Action.bindBucket, Action.getContentType, Action.validateFormat])
      | .ok img_fmt =>
        match env.body with
        | none => (.error (ApiError.no_msg 500),
            [Action.bindBucket, Action.getContentType, Action.validateFormat, Action.readBody])
        | some body =>
          if body.length > 512 * 1024 then
            (.error (ApiError.no_msg 413),
             [Action.bindBucket, Action.getContentType, Action.validateFormat, Action.readBody])
          else
            match load_image_with_hash env.decode body img_fmt with
            | .error e => (.error e,
                [Action.bindBucket, Action.getContentType, Action.validateFormat, Action.readBody,
                 Action.hashBytes, Action.decodeImage])
            | .ok (img, hash) =>
              match validate_img_dimension img with
              | .error e => (.error e,
                  [Action.bindBucket, Action.getContentType, Action.validateFormat, Action.readBody,
                   Action.hashBytes, Action.decodeImage, Action.validateDim])
              | .ok _ =>
                let up : ImageUploader := { img := img, hash := hash, dest_fmt := .Png }
                (run_fanout env up,
                 [Action.bindBucket, Action.getContentType, Action.validateFormat, Action.readBody,
                  Action.hashBytes, Action.decodeImage, Action.validateDim] ++ fanout_trace env up)

/-- `handle_post_image` (lines 76-82): a success becomes the 200 JSON
list of records, a failure becomes the error response. -/
def handle_post_image (env : RequestEnv) : HttpResponse :=
  match (post_image env).1 with
  | .ok images => { status := 200, body := .records images }
  | .error e => e.to_response

/-! ## Concrete fixtures used by witnesses -/

/-- A concrete 2-by-1 decoded image. -/
def testImg : Image := { width := 2, height := 1, pixel := fun _ _ => 0 }

/-- Environment whose bucket binding fails. -/
def envBindFail : RequestEnv :=
  { bucketOk := false, contentType := none, body := none,
    decode := fun _ _ => .otherErr, encode := fun _ => none, put := fun _ _ => false }

/-- Environment whose body read fails after a valid PNG header. -/
def envBodyFail : RequestEnv :=
  { bucketOk := true, contentType := some "image/png", body := none,
    decode := fun _ _ => .ok testImg, encode := fun _ => some [], put := fun _ _ => true }

/-- Environment whose decoder reports a non-decoding fault. -/
def envDecFault : RequestEnv :=
  { bucketOk := true, contentType := some "image/png", body := some [],
    decode := fun _ _ => .otherErr, encode := fun _ => some [], put := fun _ _ => true }

/-- Environment in which every bucket `put` fails. -/
def envPutFail : RequestEnv :=
  { bucketOk := true, contentType := some "image/png", body := some [],
    decode := fun _ _ => .ok testImg, encode := fun _ => some [], put := fun _ _ => false }

/-- Environment in which encoding fails. -/
def envEncFail : RequestEnv :=
  { bucketOk := true, contentType := some "image/png", body := some [],
    decode := fun _ _ => .ok testImg, encode := fun _ => none, put := fun _ _ => true }

/-- Environment in which every step succeeds. -/
def envAllOk : RequestEnv :=
  { bucketOk := true, contentType := some "image/png", body := some [],
    decode := fun _ _ => .ok testImg, encode := fun _ => some [], put := fun _ _ => true }

/-- A concrete uploader value. -/
def upTest : ImageUploader := { img := testImg, hash := "h", dest_fmt := .Png }

/-- A concrete 2-by-2 image with pairwise distinct pixels. -/
def gradImg : Image := { width := 2, height := 2, pixel := fun x y => x + 2 * y }

/-- Substring test on character lists: some suffix of `l` has `sub` as
a prefix. -/
def containsSub (l sub : List Char) : Bool :=
  (List.range (l.length + 1)).any fun i => sub.isPrefixOf (l.drop i)

/-- Substring test on strings, used to state that a message names a
given fragment. -/
def strContains (s sub : String) : Bool := containsSub s.data sub.data

/-- The concrete record list of a fully successful run with hash `h`. -/
def recsH : List UploadedImage :=
  [{ scale := 1, name := "h.png" }, { scale := 2, name := "h_2x.png" },
   { scale := 4, name := "h_4x.png" }, { scale := 8, name := "h_8x.png" },
   { scale := 16, name := "h_16x.png" }]

/-- The concrete record list of a successful run on the empty body. -/
def recsE : List UploadedImage :=
  [{ scale := 1, name := "e3b0c44298fc1c149afbf4c8996fb92427ae41e4649b934ca495991b7852b855.png" },
   { scale := 2, name := "e3b0c44298fc1c149afbf4c8996fb92427ae41e4649b934ca495991b7852b855_2x.png" },
   { scale := 4, name := "e3b0c44298fc1c149afbf4c8996fb92427ae41e4649b934ca495991b7852b855_4x.png" },
   { scale := 8, name := "e3b0c44298fc1c149afbf4c8996fb92427ae41e4649b934ca495991b7852b855_8x.png" },
   { scale := 16, name := "e3b0c44298fc1c149afbf4c8996fb92427ae41e4649b934ca495991b7852b855_16x.png" }]

/-! ## SHA-256 test vectors and concrete runs -/

/-- FIPS 180-4 test vector: digest of the empty message. -/
theorem sha256hex_empty :
    sha256hex [] = "e3b0c44298fc1c149afbf4c8996fb92427ae41e4649b934ca495991b7852b855" := by
  decide

/-- FIPS 180-4 test vector: digest of the three bytes "abc". -/
theorem sha256hex_abc :
    sha256hex [0x61, 0x62, 0x63] =
      "ba7816bf8f01cfea414140de5dae2223b00361a396177a9cb410ff61f20015ad" := by
  decide

example : strContains "unsupported image format: tiff" "tiff" = true := by decide

example : strContains "Content-Type is not for an image" "image" = true := by decide

example : handle_post_image envPutFail =
    { status := 500, body := .message "Internal Server Error" } := by decide

example : handle_post_image envBindFail = { status := 500, body := .empty } := by decide

example : handle_post_image envBodyFail = { status := 500, body := .empty } := by decide

example : validate_img_format "image/png" = .ok .Png := rfl

example : validate_img_format "image/jpeg" =
    .error (ApiError.new 400 "unsupported image format: jpg") := rfl

example : validate_img_format "image/funky" =
    .error (ApiError.new 400 "Content-Type is not for an image") := rfl

example : handle_post_image envAllOk =
    { status := 200,
      body := ResponseBody.records
        [ { scale := 1, name := "e3b0c44298fc1c149afbf4c8996fb92427ae41e4649b934ca495991b7852b855.png" },
        { scale := 2, name := "e3b0c44298fc1c149afbf4c8996fb92427ae41e4649b934ca495991b7852b855_2x.png" },
        { scale := 4, name := "e3b0c44298fc1c149afbf4c8996fb92427ae41e4649b934ca495991b7852b855_4x.png" },
        { scale := 8, name := "e3b0c44298fc1c149afbf4c8996fb92427ae41e4649b934ca495991b7852b855_8x.png" },
        { scale := 16, name := "e3b0c44298fc1c149afbf4c8996fb92427ae41e4649b934ca495991b7852b855_16x.png" } ] } := by
  decide

/-! ## General lemmas -/

/-- Strings with equal character data are equal. -/
theorem string_data_inj {a b : String} (h : a.data = b.data) : a = b := by
  cases a
  cases b
  exact congrArg String.mk h

/-- Appending distinct suffixes to a common prefix yields distinct
strings. -/
theorem append_ne_of_ne {a b : String} (h : String) (hab : a ≠ b) : h ++ a ≠ h ++ b := by
  intro he
  apply hab
  apply string_data_inj
  have hd := congrArg String.data he
  rw [String.data_append, String.data_append] at hd
  exact List.append_cancel_left hd

/-- Every hex digit character is in the lowercase alphabet. -/
theorem hexDigit_mem (n : Nat) : hexDigit n ∈ hexDigits := by
  by_cases hn : n < hexDigits.length
  · rw [hexDigit, List.getD_eq_getElem _ _ hn]
    exact List.getElem_mem ..
  · rw [hexDigit, List.getD_eq_default _ _ (Nat.le_of_not_lt hn)]
    decide

/-- Every character of a hex encoding is a lowercase hex digit. -/
theorem hexEncode_chars (bs : List Nat) : ∀ c ∈ (hexEncode bs).data, c ∈ hexDigits := by
  intro c hc
  simp only [hexEncode] at hc
  rw [List.mem_flatMap] at hc
  obtain ⟨b, _, hcb⟩ := hc
  simp only [byteToHex, List.mem_cons, List.not_mem_nil, or_false] at hcb
  rcases hcb with h | h
  · exact h ▸ hexDigit_mem _
  · exact h ▸ hexDigit_mem _

/-- A failed task makes the collection fail. -/
theorem collect_results_eq_none {l : List (Option UploadedImage)} (h : none ∈ l) :
    collect_results l = none := by
  induction l with
  | nil => cases h
  | cons a t ih =>
    cases a with
    | none => rfl
    | some x =>
      rcases List.mem_cons.mp h with h1 | h2
      · exact Option.noConfusion h1
      · simp [collect_results, ih h2]

/-- A successful collection of five tasks determines all five task
results and the resulting list. -/
theorem collect_results_five (o1 o2 o3 o4 o5 : Option UploadedImage) (recs : List UploadedImage)
    (h : collect_results [o1, o2, o3, o4, o5] = some recs) :
    ∃ r1 r2 r3 r4 r5, o1 = some r1 ∧ o2 = some r2 ∧ o3 = some r3 ∧ o4 = some r4 ∧ o5 = some r5 ∧
      recs = [r1, r2, r3, r4, r5] := by
  cases o1 with
  | none => simp [collect_results] at h
  | some r1 =>
    cases o2 with
    | none => simp [collect_results] at h
    | some r2 =>
      cases o3 with
      | none => simp [collect_results] at h
      | some r3 =>
        cases o4 with
        | none => simp [collect_results] at h
        | some r4 =>
          cases o5 with
          | none => simp [collect_results] at h
          | some r5 =>
            refine ⟨r1, r2, r3, r4, r5, rfl, rfl, rfl, rfl, rfl, ?_⟩
            simp [collect_results] at h
            exact h.symm

/-- The nearest-filter source index at an exact multiple target is
block replication. -/
theorem nearestSrcIndex_mul (w s x : Nat) (hw : 1 ≤ w) :
    nearestSrcIndex w (w * s) x = x / s := by
  unfold nearestSrcIndex
  rw [show 2 * (w * s) = 2 * s * w by ring]
  rw [Nat.mul_div_mul_right _ _ hw]
  rw [← Nat.div_div_eq_div_mul]
  congr 1
  omega

/-! ## C2: format validation of unsupported `image/*` subtypes -/

/-- C2 counterexample: the declared type `image/funky` starts with
`image/` and its subtype `funky` is outside the supported subset, yet
the rejection message is the generic `Content-Type is not for an
image`, which does not name the subtype. -/
theorem unsupported_subtype_message_generic :
    validate_img_format "image/funky" =
      .error (ApiError.new 400 "Content-Type is not for an image") ∧
    strContains "Content-Type is not for an image" "funky" = false := by
  exact ⟨rfl, by decide⟩

/-- C2 (amended): every declared `image/*` type whose resolved format
is outside {PNG, WebP, BMP, GIF} is rejected with status 400; when the
library recognises the mime string the message names that format
first extension, otherwise the message is the generic
`Content-Type is not for an image`. -/
theorem unsupported_format_rejected (ct : String)
    (hpre : strStartsWith ct "image/" = true)
    (hsub : ∀ fmt, ImageFormat.from_mime_type ct = some fmt →
      fmt ≠ .Png ∧ fmt ≠ .WebP ∧ fmt ≠ .Bmp ∧ fmt ≠ .Gif) :
    (ImageFormat.from_mime_type ct = none ∧
      validate_img_format ct = .error (ApiError.new 400 "Content-Type is not for an image")) ∨
    (∃ fmt, ImageFormat.from_mime_type ct = some fmt ∧
      validate_img_format ct = .error (ApiError.new 400 ("unsupported image format: " ++ fmt.ext0))) := by
  unfold validate_img_format
  rw [if_neg (by simp [hpre])]
  cases hmt : ImageFormat.from_mime_type ct with
  | none => exact Or.inl ⟨rfl, rfl⟩
  | some fmt =>
    right
    refine ⟨fmt, rfl, ?_⟩
    obtain ⟨h1, h2, h3, h4⟩ := hsub fmt hmt
    cases fmt <;> simp_all

/-- C2 witness: the recognised but unsupported type `image/jpeg`. -/
theorem unsupported_format_rejected_witness :
    (ImageFormat.from_mime_type "image/jpeg" = none ∧
      validate_img_format "image/jpeg" = .error (ApiError.new 400 "Content-Type is not for an image")) ∨
    (∃ fmt, ImageFormat.from_mime_type "image/jpeg" = some fmt ∧
      validate_img_format "image/jpeg" = .error (ApiError.new 400 ("unsupported image format: " ++ fmt.ext0))) :=
  unsupported_format_rejected "image/jpeg" (by decide) (by decide)

/-! ## C3: the pixel-count check computes in `u32` -/

/-- C3 counterexample: the 65536-by-65536 dimensions have exact pixel
count `2^32 > 65536`, but the `u32` product wraps to 0, so the
pixel-count check passes and validation instead reports the long-side
error. -/
theorem too_many_pixels_wrap_cex :
    65536 * 65536 > 65536 ∧
    validate_img_dimension { width := 65536, height := 65536, pixel := fun _ _ => 0 } =
      .error (ApiError.new 400
        ("Long side of image is too long (" ++ toString 65536 ++ " > " ++ toString MAX_LONG_SIDE_LEN ++ ")")) := by
  exact ⟨by decide, rfl⟩

/-- C3 (amended): the `TooManyPixels` rejection fires exactly on the
wrapped `u32` product: whenever `(w * h) mod 2^32 > 65536` validation
reports it first, with the wrapped count and the limit in the message.
For exact products above `2^32` that wrap to at most 65536 the check
does not fire. -/
theorem too_many_pixels_mod (img : Image)
    (h1 : img.width * img.height % 2 ^ 32 > MAX_PIXELS) :
    validate_img_dimension img = .error (ApiError.new 400
      ("Image has too many pixels (" ++ toString (img.width * img.height % 2 ^ 32) ++
        " > " ++ toString MAX_PIXELS ++ ")")) := by
  unfold validate_img_dimension validate_dims
  rw [if_pos h1]

/-- C3 witness: a 300-by-300 image (90000 pixels) is rejected with the
pixel-count message. -/
theorem too_many_pixels_mod_witness :
    validate_img_dimension { width := 300, height := 300, pixel := fun _ _ => 0 } =
      .error (ApiError.new 400
        ("Image has too many pixels (" ++ toString (300 * 300 % 2 ^ 32) ++
          " > " ++ toString MAX_PIXELS ++ ")")) :=
  too_many_pixels_mod { width := 300, height := 300, pixel := fun _ _ => 0 } (by decide)

/-! ## C9: zero-sized dimensions under the float aspect-ratio test -/

/-- C9: a 0-by-0 image passes all three dimension checks, because the
`0/0` quotient is `NaN` and `NaN > 16.0` is false; an image with one
zero side and the other side positive and within the long-side limit
is rejected by the aspect-ratio check, because division by zero gives
`+infinity`. -/
theorem zero_dimension_validation (p q r : Nat → Nat → Nat) (n : Nat)
    (h1 : 1 ≤ n) (h2 : n ≤ MAX_LONG_SIDE_LEN) :
    validate_img_dimension { width := 0, height := 0, pixel := p } = .ok () ∧
    validate_img_dimension { width := 0, height := n, pixel := q } =
      .error (ApiError.new 400
        ("Aspect retio of image is out of range (" ++ toString n ++ " : " ++ toString 0 ++ " > 16 : 1)")) ∧
    validate_img_dimension { width := n, height := 0, pixel := r } =
      .error (ApiError.new 400
        ("Aspect retio of image is out of range (" ++ toString n ++ " : " ++ toString 0 ++ " > 16 : 1)")) := by
  refine ⟨rfl, ?_, ?_⟩
  · show validate_dims 0 n = _
    unfold validate_dims
    rw [if_neg (by simp [MAX_PIXELS])]
    rw [if_neg (show ¬ 0 > n by omega)]
    rw [if_neg (show ¬ 0 > n by omega)]
    rw [if_neg (show ¬ n > MAX_LONG_SIDE_LEN by omega)]
    rw [if_pos (show aspect_ratio_exceeded n 0 = true by
      simp only [aspect_ratio_exceeded, if_pos rfl]
      simpa using h1)]
  · show validate_dims n 0 = _
    unfold validate_dims
    rw [if_neg (by simp [MAX_PIXELS])]
    rw [if_pos (show n > 0 by omega)]
    rw [if_pos (show n > 0 by omega)]
    rw [if_neg (show ¬ n > MAX_LONG_SIDE_LEN by omega)]
    rw [if_pos (show aspect_ratio_exceeded n 0 = true by
      simp only [aspect_ratio_exceeded, if_pos rfl]
      simpa using h1)]

/-- C9 witness: dimensions 0-by-0 pass and 0-by-5 / 5-by-0 are
rejected with the aspect-ratio message. -/
theorem zero_dimension_validation_witness :
    validate_img_dimension { width := 0, height := 0, pixel := fun _ _ => 0 } = .ok () ∧
    validate_img_dimension { width := 0, height := 5, pixel := fun _ _ => 0 } =
      .error (ApiError.new 400
        ("Aspect retio of image is out of range (" ++ toString 5 ++ " : " ++ toString 0 ++ " > 16 : 1)")) ∧
    validate_img_dimension { width := 5, height := 0, pixel := fun _ _ => 0 } =
      .error (ApiError.new 400
        ("Aspect retio of image is out of range (" ++ toString 5 ++ " : " ++ toString 0 ++ " > 16 : 1)")) :=
  zero_dimension_validation (fun _ _ => 0) (fun _ _ => 0) (fun _ _ => 0) 5 (by decide) (by decide)

/-! ## C7: nearest-neighbor upscaling is block replication -/

/-- C7: for a nonempty source image and any positive scale, the derived
variant has exact size `(w*s, h*s)` and every output pixel `(x, y)`
replicates the source pixel `(x / s, y / s)`, so each `s`-by-`s` output
block uniformly replicates its single corresponding source pixel. -/
theorem nearest_upscale_block_replication (img : Image) (s : Nat)
    (hw : 1 ≤ img.width) (hh : 1 ≤ img.height) (_hs : 1 ≤ s) :
    (upscaled img s).width = img.width * s ∧
    (upscaled img s).height = img.height * s ∧
    ∀ x y, (upscaled img s).pixel x y = img.pixel (x / s) (y / s) := by
  refine ⟨rfl, rfl, fun x y => ?_⟩
  show img.pixel (nearestSrcIndex img.width (img.width * s) x)
        (nearestSrcIndex img.height (img.height * s) y) = _
  rw [nearestSrcIndex_mul _ _ _ hw, nearestSrcIndex_mul _ _ _ hh]

/-- C7 witness: the 2x variant of a concrete 2-by-2 image has size
4-by-4 and its pixel at `(3, 1)` replicates the source pixel at
`(1, 0)`. -/
theorem nearest_upscale_block_replication_witness :
    (upscaled gradImg 2).width = 4 ∧
    (upscaled gradImg 2).pixel 3 1 = gradImg.pixel 1 0 :=
  ⟨(nearest_upscale_block_replication gradImg 2 (by decide) (by decide) (by decide)).1,
   (nearest_upscale_block_replication gradImg 2 (by decide) (by decide) (by decide)).2.2 3 1⟩

/-! ## Storage-key shapes of the five tasks -/

/-- Folding the PNG extension into the original key suffix. -/
theorem key_orig_eq (h : String) : h ++ "." ++ ImageFormat.ext0 .Png = h ++ ".png" := by
  rw [String.append_assoc]
  rw [show ("." : String) ++ ImageFormat.ext0 .Png = ".png" from by decide]

/-- Folding the scale and the PNG extension into an upscaled key
suffix. -/
theorem key_sx_eq (h : String) (s : Nat) (lit : String)
    (hlit : "_" ++ (toString s ++ ("x" ++ ("." ++ ImageFormat.ext0 .Png))) = lit) :
    h ++ "_" ++ toString s ++ "x" ++ "." ++ ImageFormat.ext0 .Png = h ++ lit := by
  simp only [String.append_assoc]
  rw [hlit]

/-- The original-image task either fails or yields scale 1 under the
key `{hash}.{ext}`. -/
theorem upload_original_image_fst (env : RequestEnv) (up : ImageUploader) :
    (upload_original_image env up).1 = none ∨
    (upload_original_image env up).1 =
      some { scale := 1, name := up.hash ++ "." ++ up.dest_fmt.ext0 } := by
  unfold upload_original_image upload_image_to_bucket
  cases henc : env.encode up.img with
  | none => exact Or.inl (by simp [henc])
  | some d =>
    cases hput : env.put (up.hash ++ "." ++ up.dest_fmt.ext0) d with
    | false => exact Or.inl (by simp [henc, hput])
    | true => exact Or.inr (by simp [henc, hput])

/-- The upscaled task either fails or yields its scale under the key
`{hash}_{scale}x.{ext}`. -/
theorem upload_upscaled_image_fst (env : RequestEnv) (up : ImageUploader) (s : Nat) :
    (upload_upscaled_image env up s).1 = none ∨
    (upload_upscaled_image env up s).1 =
      some { scale := s, name := up.hash ++ "_" ++ toString s ++ "x" ++ "." ++ up.dest_fmt.ext0 } := by
  unfold upload_upscaled_image upload_image_to_bucket
  cases henc : env.encode (upscaled up.img s) with
  | none => exact Or.inl (by simp [henc])
  | some d =>
    cases hput : env.put (up.hash ++ "_" ++ toString s ++ "x" ++ "." ++ up.dest_fmt.ext0) d with
    | false => exact Or.inl (by simp [henc, hput])
    | true => exact Or.inr (by simp [henc, hput])

/-- A successful fan-out with destination format PNG yields exactly the
five records with scales 1, 2, 4, 8, 16 and the content-addressed
keys. -/
theorem run_fanout_ok_png (env : RequestEnv) (up : ImageUploader) (hfmt : up.dest_fmt = .Png)
    (recs : List UploadedImage) (hok : run_fanout env up = .ok recs) :
    recs = [{ scale := 1, name := up.hash ++ ".png" },
            { scale := 2, name := up.hash ++ "_2x.png" },
            { scale := 4, name := up.hash ++ "_4x.png" },
            { scale := 8, name := up.hash ++ "_8x.png" },
            { scale := 16, name := up.hash ++ "_16x.png" }] := by
  unfold run_fanout at hok
  rcases hcr : collect_results ((pipeline_tasks env up).map Prod.fst) with _ | l
  · rw [hcr] at hok
    exact Except.noConfusion hok
  · rw [hcr] at hok
    cases hok
    obtain ⟨r1, r2, r3, r4, r5, e1, e2, e3, e4, e5, rfl⟩ :=
      collect_results_five _ _ _ _ _ _ (by simpa [pipeline_tasks] using hcr)
    rcases upload_original_image_fst env up with h1 | h1
    · rw [h1] at e1; exact Option.noConfusion e1
    rcases upload_upscaled_image_fst env up 2 with h2 | h2
    · rw [h2] at e2; exact Option.noConfusion e2
    rcases upload_upscaled_image_fst env up 4 with h3 | h3
    · rw [h3] at e3; exact Option.noConfusion e3
    rcases upload_upscaled_image_fst env up 8 with h4 | h4
    · rw [h4] at e4; exact Option.noConfusion e4
    rcases upload_upscaled_image_fst env up 16 with h5 | h5
    · rw [h5] at e5; exact Option.noConfusion e5
    rw [h1] at e1
    rw [h2] at e2
    rw [h3] at e3
    rw [h4] at e4
    rw [h5] at e5
    rw [← Option.some.inj e1, ← Option.some.inj e2, ← Option.some.inj e3,
        ← Option.some.inj e4, ← Option.some.inj e5]
    rw [hfmt]
    rw [key_orig_eq, key_sx_eq _ 2 "_2x.png" (by decide), key_sx_eq _ 4 "_4x.png" (by decide),
        key_sx_eq _ 8 "_8x.png" (by decide), key_sx_eq _ 16 "_16x.png" (by decide)]

/-! ## C4: any task failure collapses to the single aggregate 500 -/

/-- C4: whenever at least one of the five derive-encode-persist tasks
fails, the fan-out produces the single aggregate
`ApiError::new(500, "Internal Server Error")` and never a record list;
its wire form is status 500 with the single generic message. -/
theorem fanout_aggregate_failure (env : RequestEnv) (up : ImageUploader)
    (hfail : none ∈ (pipeline_tasks env up).map Prod.fst) :
    run_fanout env up = .error (ApiError.new 500 "Internal Server Error") ∧
    (∀ recs : List UploadedImage, run_fanout env up ≠ .ok recs) ∧
    (ApiError.new 500 "Internal Server Error").to_response =
      { status := 500, body := .message "Internal Server Error" } := by
  have h := collect_results_eq_none hfail
  refine ⟨?_, ?_, rfl⟩
  · unfold run_fanout
    rw [h]
  · intro recs hc
    unfold run_fanout at hc
    rw [h] at hc
    exact Except.noConfusion hc

/-- C4 witness: with a failing encoder every task fails and the fan-out
reports the aggregate error. -/
theorem fanout_aggregate_failure_witness :
    run_fanout envEncFail upTest = .error (ApiError.new 500 "Internal Server Error") :=
  (fanout_aggregate_failure envEncFail upTest (by decide)).1

/-! ## C5: a fully successful fan-out reports five complete records -/

/-- C5: on full success the response is exactly the five records in
construction order with scales [1, 2, 4, 8, 16], whose storage keys
follow the `{hash}.{ext}` / `{hash}_{scale}x.{ext}` rule and are
pairwise distinct. -/
theorem fanout_success_shape (env : RequestEnv) (up : ImageUploader)
    (hfmt : up.dest_fmt = .Png) (recs : List UploadedImage)
    (hok : run_fanout env up = .ok recs) :
    recs = [{ scale := 1, name := up.hash ++ ".png" },
            { scale := 2, name := up.hash ++ "_2x.png" },
            { scale := 4, name := up.hash ++ "_4x.png" },
            { scale := 8, name := up.hash ++ "_8x.png" },
            { scale := 16, name := up.hash ++ "_16x.png" }] ∧
    recs.map UploadedImage.scale = [1, 2, 4, 8, 16] ∧
    (recs.map UploadedImage.name).Pairwise (fun a b => a ≠ b) := by
  have h := run_fanout_ok_png env up hfmt recs hok
  subst h
  refine ⟨rfl, rfl, ?_⟩
  have hsufs : ([".png", "_2x.png", "_4x.png", "_8x.png", "_16x.png"] : List String).Pairwise
      (fun a b => a ≠ b) := by decide
  have hmap := List.Pairwise.map (fun suf => up.hash ++ suf)
    (fun a b hab => append_ne_of_ne up.hash hab) hsufs
  simpa using hmap

/-- C5 witness: the all-success environment yields the five concrete
records for hash `h`. -/
theorem fanout_success_shape_witness :
    recsH = [{ scale := 1, name := upTest.hash ++ ".png" },
             { scale := 2, name := upTest.hash ++ "_2x.png" },
             { scale := 4, name := upTest.hash ++ "_4x.png" },
             { scale := 8, name := upTest.hash ++ "_8x.png" },
             { scale := 16, name := upTest.hash ++ "_16x.png" }] ∧
    recsH.map UploadedImage.scale = [1, 2, 4, 8, 16] ∧
    (recsH.map UploadedImage.name).Pairwise (fun a b => a ≠ b) :=
  fanout_success_shape envAllOk upTest rfl recsH rfl

/-! ## Error classification of the pipeline stages -/

/-- The wire status of an error response equals the error status. -/
theorem to_response_status (e : ApiError) : e.to_response.status = e.status := by
  unfold ApiError.to_response
  cases e.message <;> rfl

/-- Every format-validation error carries status 400. -/
theorem validate_img_format_error_status (ct : String) (e : ApiError)
    (h : validate_img_format ct = .error e) : e.status = 400 := by
  unfold validate_img_format at h
  split at h
  · injection h with h
    subst h
    rfl
  · cases hm : ImageFormat.from_mime_type ct <;> rw [hm] at h
    · injection h with h
      subst h
      rfl
    · rename_i fmt
      cases fmt <;> simp at h <;> (subst h; rfl)

/-- Every dimension-validation error carries status 400. -/
theorem validate_dims_error_status (w hgt : Nat) (e : ApiError)
    (h : validate_dims w hgt = .error e) : e.status = 400 := by
  unfold validate_dims at h
  dsimp only at h
  split at h
  · injection h with h
    subst h
    rfl
  · by_cases hwh : w > hgt
    · rw [if_pos hwh, if_pos hwh] at h
      split at h
      · injection h with h
        subst h
        rfl
      · split at h
        · injection h with h
          subst h
          rfl
        · exact Except.noConfusion h
    · rw [if_neg hwh, if_neg hwh] at h
      split at h
      · injection h with h
        subst h
        rfl
      · split at h
        · injection h with h
          subst h
          rfl
        · exact Except.noConfusion h

/-- A successful load returns exactly the content fingerprint of the
raw bytes, whatever the decoder did. -/
theorem load_image_with_hash_ok (decode : List Nat → ImageFormat → DecodeResult)
    (b : List Nat) (fmt : ImageFormat) (img : Image) (hs : String)
    (h : load_image_with_hash decode b fmt = .ok (img, hs)) : hs = sha256hex b := by
  unfold load_image_with_hash at h
  cases hd : decode b fmt <;> rw [hd] at h
  · injection h with h
    exact (congrArg Prod.snd h).symm
  · exact Except.noConfusion h
  · exact Except.noConfusion h

/-- A failed load is the user-facing decode failure or the opaque
internal 500. -/
theorem load_image_with_hash_error (decode : List Nat → ImageFormat → DecodeResult)
    (b : List Nat) (fmt : ImageFormat) (e : ApiError)
    (h : load_image_with_hash decode b fmt = .error e) :
    e = ApiError.new 400 "failed to decode image" ∨ e = ApiError.no_msg 500 := by
  unfold load_image_with_hash at h
  cases hd : decode b fmt <;> rw [hd] at h
  · exact Except.noConfusion h
  · injection h with h
    exact Or.inl h.symm
  · injection h with h
    exact Or.inr h.symm

/-- A failed fan-out reports exactly the aggregate internal error. -/
theorem run_fanout_error (env : RequestEnv) (up : ImageUploader) (e : ApiError)
    (h : run_fanout env up = .error e) : e = ApiError.new 500 "Internal Server Error" := by
  unfold run_fanout at h
  cases hc : collect_results ((pipeline_tasks env up).map Prod.fst) <;> rw [hc] at h
  · injection h with h
    exact h.symm
  · exact Except.noConfusion h

/-- Every error produced by the handler is the opaque 500, the bare
413, a 400-status error, or the aggregate fan-out error. -/
theorem post_image_error_status (env : RequestEnv) (e : ApiError)
    (h : (post_image env).1 = .error e) :
    e = ApiError.no_msg 500 ∨ e = ApiError.no_msg 413 ∨ e.status = 400 ∨
    e = ApiError.new 500 "Internal Server Error" := by
  unfold post_image at h
  cases hb : env.bucketOk <;> rw [hb] at h <;> dsimp only at h
  · injection h with h
    exact Or.inl h.symm
  · cases hct : env.contentType <;> rw [hct] at h <;> dsimp only at h
    · injection h with h
      refine Or.inr (Or.inr (Or.inl ?_))
      rw [← h]
      rfl
    · rename_i ct
      cases hvf : validate_img_format ct <;> rw [hvf] at h <;> dsimp only at h
      · rename_i e2
        injection h with h
        subst h
        exact Or.inr (Or.inr (Or.inl (validate_img_format_error_status ct e2 hvf)))
      · rename_i fmt
        cases hbody : env.body <;> rw [hbody] at h <;> dsimp only at h
        · injection h with h
          exact Or.inl h.symm
        · rename_i b
          split at h
          · injection h with h
            exact Or.inr (Or.inl h.symm)
          · cases hload : load_image_with_hash env.decode b fmt <;> rw [hload] at h <;>
              dsimp only at h
            · rename_i e2
              injection h with h
              subst h
              rcases load_image_with_hash_error _ _ _ _ hload with h4 | h4
              · refine Or.inr (Or.inr (Or.inl ?_))
                rw [h4]
                rfl
              · exact Or.inl h4
            · rename_i pr
              obtain ⟨img, hs⟩ := pr
              cases hdim : validate_img_dimension img <;> rw [hdim] at h <;> dsimp only at h
              · rename_i e2
                injection h with h
                subst h
                exact Or.inr (Or.inr (Or.inl (validate_dims_error_status _ _ e2 hdim)))
              · exact Or.inr (Or.inr (Or.inr (run_fanout_error _ _ _ h)))

/-- The record list of every successful run is determined by the raw
body bytes: five PNG keys stemmed on the body fingerprint. -/
theorem post_image_ok_names (env : RequestEnv) (b : List Nat) (recs : List UploadedImage)
    (hbody : env.body = some b) (hok : (post_image env).1 = .ok recs) :
    recs = [{ scale := 1, name := sha256hex b ++ ".png" },
            { scale := 2, name := sha256hex b ++ "_2x.png" },
            { scale := 4, name := sha256hex b ++ "_4x.png" },
            { scale := 8, name := sha256hex b ++ "_8x.png" },
            { scale := 16, name := sha256hex b ++ "_16x.png" }] := by
  unfold post_image at hok
  cases hb : env.bucketOk <;> rw [hb] at hok <;> dsimp only at hok
  · exact Except.noConfusion hok
  · cases hct : env.contentType <;> rw [hct] at hok <;> dsimp only at hok
    · exact Except.noConfusion hok
    · rename_i ct
      cases hvf : validate_img_format ct <;> rw [hvf] at hok <;> dsimp only at hok
      · exact Except.noConfusion hok
      · rename_i fmt
        rw [hbody] at hok
        dsimp only at hok
        split at hok
        · exact Except.noConfusion hok
        · cases hload : load_image_with_hash env.decode b fmt <;> rw [hload] at hok <;>
            dsimp only at hok
          · exact Except.noConfusion hok
          · rename_i pr
            obtain ⟨img, hs⟩ := pr
            have hhs : hs = sha256hex b := load_image_with_hash_ok _ _ _ _ _ hload
            subst hhs
            cases hdim : validate_img_dimension img <;> rw [hdim] at hok <;> dsimp only at hok
            · exact Except.noConfusion hok
            · exact run_fanout_ok_png env _ rfl recs hok

/-! ## C1: opacity of internal-fault responses -/

/-- C1 counterexample: a run in which a persistence call fails returns
status 500 with the JSON body carrying the message field
`Internal Server Error`, not an empty body. -/
theorem internal_error_message_not_empty :
    handle_post_image envPutFail = { status := 500, body := .message "Internal Server Error" } ∧
    ResponseBody.message "Internal Server Error" ≠ ResponseBody.empty := by
  exact ⟨by decide, by decide⟩

/-- A run that reaches the fan-out with a failing task answers 500
with the fixed aggregate message. -/
theorem post_fanout_fail_response (env : RequestEnv) (ct : String) (fmt : ImageFormat)
    (b : List Nat) (img : Image)
    (hb : env.bucketOk = true) (hct : env.contentType = some ct)
    (hvf : validate_img_format ct = .ok fmt) (hbody : env.body = some b)
    (hlen : ¬ b.length > 512 * 1024) (hdec : env.decode b fmt = .ok img)
    (hdim : validate_img_dimension img = .ok ())
    (hfail : none ∈ (pipeline_tasks env
      { img := img, hash := sha256hex b, dest_fmt := .Png }).map Prod.fst) :
    handle_post_image env = { status := 500, body := .message "Internal Server Error" } := by
  have hload : load_image_with_hash env.decode b fmt = .ok (img, sha256hex b) := by
    unfold load_image_with_hash
    rw [hdec]
  unfold handle_post_image post_image
  rw [hb, hct]
  dsimp only
  rw [hvf]
  dsimp only
  rw [hbody]
  dsimp only
  rw [if_neg hlen, hload]
  dsimp only
  rw [hdim]
  dsimp only
  unfold run_fanout
  rw [collect_results_eq_none hfail]
  exact rfl

/-- C1 (amended): the five internal-fault classes answer as the code
does: a bucket-binding fault, a body-read fault and a non-decoding
decoder fault each answer 500 with an empty body; an encode fault of
any of the five variants and a persistence fault of any of the five
`put` calls each answer 500 with the fixed generic message
`Internal Server Error`; and no 500 response ever carries any body
other than those two. -/
theorem internal_faults_masked (env : RequestEnv) :
    (env.bucketOk = false → handle_post_image env = { status := 500, body := .empty }) ∧
    (∀ ct fmt, env.bucketOk = true → env.contentType = some ct →
      validate_img_format ct = .ok fmt → env.body = none →
      handle_post_image env = { status := 500, body := .empty }) ∧
    (∀ ct fmt b, env.bucketOk = true → env.contentType = some ct →
      validate_img_format ct = .ok fmt → env.body = some b →
      ¬ b.length > 512 * 1024 → env.decode b fmt = .otherErr →
      handle_post_image env = { status := 500, body := .empty }) ∧
    (∀ ct fmt b img, env.bucketOk = true → env.contentType = some ct →
      validate_img_format ct = .ok fmt → env.body = some b →
      ¬ b.length > 512 * 1024 → env.decode b fmt = .ok img →
      validate_img_dimension img = .ok () →
      (env.encode img = none ∨
        ∃ s, s ∈ ([2, 4, 8, 16] : List Nat) ∧ env.encode (upscaled img s) = none) →
      handle_post_image env = { status := 500, body := .message "Internal Server Error" }) ∧
    (∀ ct fmt b img, env.bucketOk = true → env.contentType = some ct →
      validate_img_format ct = .ok fmt → env.body = some b →
      ¬ b.length > 512 * 1024 → env.decode b fmt = .ok img →
      validate_img_dimension img = .ok () →
      ((∃ d, env.encode img = some d ∧ env.put (sha256hex b ++ ".png") d = false) ∨
        (∃ s, s ∈ ([2, 4, 8, 16] : List Nat) ∧ ∃ d, env.encode (upscaled img s) = some d ∧
          env.put (sha256hex b ++ "_" ++ toString s ++ "x" ++ ".png") d = false)) →
      handle_post_image env = { status := 500, body := .message "Internal Server Error" }) ∧
    ((handle_post_image env).status = 500 →
      (handle_post_image env).body = .empty ∨
      (handle_post_image env).body = .message "Internal Server Error") := by
  refine ⟨?_, ?_, ?_, ?_, ?_, ?_⟩
  · intro h
    unfold handle_post_image post_image
    rw [h]
    exact rfl
  · intro ct fmt hb hct hvf hbody
    unfold handle_post_image post_image
    rw [hb, hct]
    dsimp only
    rw [hvf]
    dsimp only
    rw [hbody]
    exact rfl
  · intro ct fmt b hb hct hvf hbody hlen hdec
    have hload : load_image_with_hash env.decode b fmt = .error (ApiError.no_msg 500) := by
      unfold load_image_with_hash
      rw [hdec]
    unfold handle_post_image post_image
    rw [hb, hct]
    dsimp only
    rw [hvf]
    dsimp only
    rw [hbody]
    dsimp only
    rw [if_neg hlen, hload]
    exact rfl
  · intro ct fmt b img hb hct hvf hbody hlen hdec hdim henc
    refine post_fanout_fail_response env ct fmt b img hb hct hvf hbody hlen hdec hdim ?_
    rcases henc with h | ⟨s, hs, h⟩
    · have ht : (upload_original_image env
          { img := img, hash := sha256hex b, dest_fmt := .Png }).1 = none := by
        unfold upload_original_image
        dsimp only
        rw [h]
      simp [pipeline_tasks, ht]
    · have ht : (upload_upscaled_image env
          { img := img, hash := sha256hex b, dest_fmt := .Png } s).1 = none := by
        unfold upload_upscaled_image
        dsimp only
        rw [h]
      rcases (by simpa using hs : s = 2 ∨ s = 4 ∨ s = 8 ∨ s = 16) with rfl | rfl | rfl | rfl <;>
        simp [pipeline_tasks, ht]
  · intro ct fmt b img hb hct hvf hbody hlen hdec hdim hput
    refine post_fanout_fail_response env ct fmt b img hb hct hvf hbody hlen hdec hdim ?_
    rcases hput with ⟨d, hencd, hputd⟩ | ⟨s, hs, d, hencd, hputd⟩
    · have ht : (upload_original_image env
          { img := img, hash := sha256hex b, dest_fmt := .Png }).1 = none := by
        unfold upload_original_image upload_image_to_bucket
        dsimp only
        rw [hencd]
        dsimp only
        rw [key_orig_eq, hputd]
        rfl
      simp [pipeline_tasks, ht]
    · have ht : (upload_upscaled_image env
          { img := img, hash := sha256hex b, dest_fmt := .Png } s).1 = none := by
        unfold upload_upscaled_image upload_image_to_bucket
        dsimp only
        rw [hencd]
        dsimp only
        rw [key_orig_eq (sha256hex b ++ "_" ++ toString s ++ "x"), hputd]
        rfl
      rcases (by simpa using hs : s = 2 ∨ s = 4 ∨ s = 8 ∨ s = 16) with rfl | rfl | rfl | rfl <;>
        simp [pipeline_tasks, ht]
  · intro h500
    unfold handle_post_image at h500 ⊢
    cases hres : (post_image env).1 with
    | ok recs =>
      rw [hres] at h500
      dsimp only at h500
      exact absurd h500 (by decide)
    | error e =>
      rw [hres] at h500
      dsimp only at h500 ⊢
      rcases post_image_error_status env e hres with he | he | he | he
      · subst he
        exact Or.inl rfl
      · subst he
        exact absurd h500 (by decide)
      · rw [to_response_status] at h500
        omega
      · subst he
        exact Or.inr rfl

/-- C1 witness: one concrete run per fault class: binding, body-read
and decoder faults answer 500 empty; encode and persistence faults
answer 500 with the fixed message. -/
theorem internal_faults_masked_witness :
    handle_post_image envBindFail = { status := 500, body := .empty } ∧
    handle_post_image envBodyFail = { status := 500, body := .empty } ∧
    handle_post_image envDecFault = { status := 500, body := .empty } ∧
    handle_post_image envEncFail = { status := 500, body := .message "Internal Server Error" } ∧
    handle_post_image envPutFail = { status := 500, body := .message "Internal Server Error" } :=
  ⟨(internal_faults_masked envBindFail).1 rfl,
   (internal_faults_masked envBodyFail).2.1 "image/png" .Png rfl rfl rfl rfl,
   (internal_faults_masked envDecFault).2.2.1 "image/png" .Png [] rfl rfl rfl rfl
     (by decide) rfl,
   (internal_faults_masked envEncFail).2.2.2.1 "image/png" .Png [] testImg rfl rfl rfl rfl
     (by decide) rfl rfl (Or.inl rfl),
   (internal_faults_masked envPutFail).2.2.2.2.1 "image/png" .Png [] testImg rfl rfl rfl rfl
     (by decide) rfl rfl (Or.inl ⟨[], rfl, rfl⟩)⟩

/-! ## C6: content-addressed storage keys -/

/-- C6: the keys of every successful submission are exactly
`{fingerprint}.png` for scale 1 and `{fingerprint}_{s}x.png` for the
upscaled variants, where the fingerprint is the lowercase hex SHA-256
digest of the raw body bytes; identical bodies give identical keys. -/
theorem storage_keys_content_addressed (env : RequestEnv) (b : List Nat)
    (recs : List UploadedImage) (hbody : env.body = some b)
    (hok : (post_image env).1 = .ok recs) :
    recs.map UploadedImage.name =
      [sha256hex b ++ ".png", sha256hex b ++ "_2x.png", sha256hex b ++ "_4x.png",
       sha256hex b ++ "_8x.png", sha256hex b ++ "_16x.png"] ∧
    (∀ c ∈ (sha256hex b).data, c ∈ hexDigits) ∧
    (∀ env2 recs2, env2.body = some b → (post_image env2).1 = .ok recs2 →
      recs2.map UploadedImage.name = recs.map UploadedImage.name) := by
  have h := post_image_ok_names env b recs hbody hok
  refine ⟨by rw [h]; exact rfl, hexEncode_chars _, ?_⟩
  intro env2 recs2 hb2 hok2
  rw [post_image_ok_names env2 b recs2 hb2 hok2, h]

/-- C6 witness: on the empty body the five keys stem on the digest of
the empty message. -/
theorem storage_keys_content_addressed_witness :
    recsE.map UploadedImage.name =
      [sha256hex [] ++ ".png", sha256hex [] ++ "_2x.png", sha256hex [] ++ "_4x.png",
       sha256hex [] ++ "_8x.png", sha256hex [] ++ "_16x.png"] :=
  (storage_keys_content_addressed envAllOk [] recsE rfl rfl).1

/-! ## C8: the fingerprint is a pure function of the raw bytes -/

/-- C8: the fingerprint returned by the load step equals the SHA-256
hex digest of the raw bytes whatever the decoder does (the raw bytes
are hashed before decoding), so two loads of the same bytes agree, and
any two fully successful submissions of the same bytes produce the same
storage keys. -/
theorem fingerprint_pure_function (d1 d2 : List Nat → ImageFormat → DecodeResult)
    (b : List Nat) (fmt1 fmt2 : ImageFormat) (img1 img2 : Image) (h1 h2 : String)
    (e1 : load_image_with_hash d1 b fmt1 = .ok (img1, h1))
    (e2 : load_image_with_hash d2 b fmt2 = .ok (img2, h2)) :
    h1 = sha256hex b ∧ h1 = h2 ∧
    (∀ env env2 recs recs2, env.body = some b → env2.body = some b →
      (post_image env).1 = .ok recs → (post_image env2).1 = .ok recs2 →
      recs.map UploadedImage.name = recs2.map UploadedImage.name) := by
  have k1 := load_image_with_hash_ok _ _ _ _ _ e1
  have k2 := load_image_with_hash_ok _ _ _ _ _ e2
  refine ⟨k1, k1.trans k2.symm, ?_⟩
  intro env env2 recs recs2 hb hb2 hok hok2
  rw [post_image_ok_names env b recs hb hok, post_image_ok_names env2 b recs2 hb2 hok2]

/-- C8 witness: two loads of the empty body under different declared
formats both return the digest of the empty message. -/
theorem fingerprint_pure_function_witness :
    "e3b0c44298fc1c149afbf4c8996fb92427ae41e4649b934ca495991b7852b855" = sha256hex [] :=
  (fingerprint_pure_function (fun _ _ => .ok testImg) (fun _ _ => .ok testImg) [] .Png .Gif
    testImg testImg
    "e3b0c44298fc1c149afbf4c8996fb92427ae41e4649b934ca495991b7852b855"
    "e3b0c44298fc1c149afbf4c8996fb92427ae41e4649b934ca495991b7852b855" rfl rfl).1

/-! ## C10: sequencing of the binding, the body read and the rest -/

/-- C10: the bucket binding is resolved before any header or body
processing, so a binding failure answers 500 with an empty body after
performing nothing else; a body-read failure (necessarily after format
validation passed) answers 500 with an empty body, and no hashing,
decoding, dimension validation or persistence is performed. -/
theorem early_internal_failures (env : RequestEnv) :
    (env.bucketOk = false →
      handle_post_image env = { status := 500, body := .empty } ∧
      (post_image env).2 = [Action.bindBucket]) ∧
    (∀ ct fmt, env.bucketOk = true → env.contentType = some ct →
      validate_img_format ct = .ok fmt → env.body = none →
      handle_post_image env = { status := 500, body := .empty } ∧
      (post_image env).2 =
        [Action.bindBucket, Action.getContentType, Action.validateFormat, Action.readBody] ∧
      Action.hashBytes ∉ (post_image env).2 ∧
      Action.decodeImage ∉ (post_image env).2 ∧
      Action.validateDim ∉ (post_image env).2 ∧
      (∀ k, Action.persist k ∉ (post_image env).2)) := by
  constructor
  · intro h
    unfold handle_post_image post_image
    rw [h]
    exact ⟨rfl, rfl⟩
  · intro ct fmt hb hct hvf hbody
    unfold handle_post_image post_image
    rw [hb, hct]
    dsimp only
    rw [hvf]
    dsimp only
    rw [hbody]
    dsimp only
    refine ⟨rfl, rfl, by decide, by decide, by decide, ?_⟩
    intro k
    simp

/-- C10 witness: the binding-failure trace stops at the binding, and
the body-read-failure run answers 500 empty with the four-step trace. -/
theorem early_internal_failures_witness :
    (post_image envBindFail).2 = [Action.bindBucket] ∧
    handle_post_image envBodyFail = { status := 500, body := .empty } ∧
    (post_image envBodyFail).2 =
      [Action.bindBucket, Action.getContentType, Action.validateFormat, Action.readBody] :=
  ⟨((early_internal_failures envBindFail).1 rfl).2,
   ((early_internal_failures envBodyFail).2 "image/png" .Png rfl rfl rfl rfl).1,
   ((early_internal_failures envBodyFail).2 "image/png" .Png rfl rfl rfl rfl).2.1⟩

end Upix
